import Mathlib

/-!
Shallow embedding of src/src/opcontrol.c, the teleoperated control loop of
a competition robot.  Each iteration of the while loop inside
operatorControl is modelled as a pure function from the inputs sampled
during that tick (joystick axes and buttons, digital pins, the sorter
encoder, the millisecond clock) and the module-level mutable state to the
new state together with the motor commands issued during that tick.

Motor commands are recorded per motor: the C loop issues at most one
motorSet or motorStop per motor per tick, so an Option MCmd field (or a
plain MCmd field for motors that are commanded on every tick) records
exactly what was sent, with none meaning that no command was issued and
the previously latched command stays in force on the hardware.
-/

namespace Opctl

/-- A command accepted by a motor: motorSet with a signed power, or motorStop. -/
inductive MCmd where
  | set (power : Int) : MCmd
  | stop : MCmd
deriving DecidableEq

/-- Motor port constant M_FRONT_LEFT from opcontrol.c. -/
def M_FRONT_LEFT : Nat := 2

/-- Motor port constant M_FRONT_RIGHT from opcontrol.c. -/
def M_FRONT_RIGHT : Nat := 3

/-- Motor port constant M_BACK_LEFT from opcontrol.c. -/
def M_BACK_LEFT : Nat := 4

/-- Motor port constant M_BACK_RIGHT from opcontrol.c. -/
def M_BACK_RIGHT : Nat := 5

/-- Motor port constant PICKUP from opcontrol.c. -/
def PICKUP : Nat := 1

/-- Motor port constant SHOOTER from opcontrol.c. -/
def SHOOTER : Nat := 7

/-- Motor port constant RAMP from opcontrol.c. -/
def RAMP : Nat := 8

/-- Motor port constant SORTER from opcontrol.c. -/
def SORTER : Nat := 9

/-- Motor port constant LIFTER from opcontrol.c. -/
def LIFTER : Nat := 6

/-- Motor port constant MIXER from opcontrol.c. -/
def MIXER : Nat := 10

/-- Sensor port constant LIFTER_SENS_MAX from opcontrol.c. -/
def LIFTER_SENS_MAX : Nat := 3

/-- Sensor port constant LIFTER_SENS_MIN from opcontrol.c. -/
def LIFTER_SENS_MIN : Nat := 4

/-- Sensor port constant ARDUINO_SENS_OUT from opcontrol.c. -/
def ARDUINO_SENS_OUT : Nat := 7

/-- The joystick deadzone threshold, define DEADZONE 20. -/
def DEADZONE : Int := 20

/-- The mixer motor power, define MIXER_SPEED 30. -/
def MIXER_SPEED : Int := 30

/-- The pickup toggle debounce interval, the global debounceDelay = 100. -/
def debounceDelay : Nat := 100

/-- The digital level LOW; digital pins are modelled as Bool with true = HIGH. -/
def LOW : Bool := false

/-- The inputs sampled by one iteration of the operatorControl loop: the
three drive joystick axes, the digital buttons that the loop reads, the
digital pins, the sorter encoder count, and the value returned by millis. -/
structure Input where
  /-- joystickGetAnalog(1,1), the throttle axis. -/
  axis1 : Int
  /-- joystickGetAnalog(1,3), the strafe axis. -/
  axis3 : Int
  /-- joystickGetAnalog(1,4), the turn axis. -/
  axis4 : Int
  /-- joystickGetDigital(1,7,JOY_RIGHT), the pickup toggle button. -/
  btn7R : Bool
  /-- joystickGetDigital(1,5,JOY_DOWN), shooter on. -/
  btn5Dn : Bool
  /-- joystickGetDigital(1,5,JOY_UP), shooter stop. -/
  btn5Up : Bool
  /-- joystickGetDigital(1,6,JOY_UP), ramp forward. -/
  btn6Up : Bool
  /-- joystickGetDigital(1,6,JOY_DOWN), ramp reverse. -/
  btn6Dn : Bool
  /-- joystickGetDigital(1,8,JOY_UP), lifter up. -/
  btn8Up : Bool
  /-- joystickGetDigital(1,8,JOY_DOWN), lifter down. -/
  btn8Dn : Bool
  /-- joystickGetDigital(1,8,JOY_LEFT), manual friendly sort trigger. -/
  btn8L : Bool
  /-- joystickGetDigital(1,8,JOY_RIGHT), manual enemy sort trigger. -/
  btn8R : Bool
  /-- digitalRead(LIFTER_SENS_MAX); true = HIGH, false = LOW (switch pressed). -/
  pinLifterMax : Bool
  /-- digitalRead(LIFTER_SENS_MIN); true = HIGH, false = LOW (switch pressed). -/
  pinLifterMin : Bool
  /-- digitalRead(ARDUINO_SENS_OUT); true = HIGH (enemy ball). -/
  pinArduino : Bool
  /-- encoderGet(sorter), the signed encoder count during this tick. -/
  enc : Int
  /-- millis() during this tick. -/
  time : Nat
deriving DecidableEq

/-- The module-level mutable variables of opcontrol.c.  The C ints only
ever hold 0 or 1 (they are assigned literals 0 and 1 and the C negation of
0/1), so they are modelled as Bool; pickupLastTime holds a millis value. -/
@[ext]
structure State where
  pickupIsActive : Bool
  lifterAtMax : Bool
  lifterAtMin : Bool
  sorterFriendly : Bool
  sorterEnemy : Bool
  pickupLastTime : Nat
deriving DecidableEq

/-- Initial values of the module-level variables (all zero). -/
def initState : State :=
  { pickupIsActive := false
    lifterAtMax := false
    lifterAtMin := false
    sorterFriendly := false
    sorterEnemy := false
    pickupLastTime := 0 }

/-- The four drive-motor commands issued by either moveRobot or stopRobot
(both command all four drive motors on every call). -/
structure DriveOut where
  frontLeft : MCmd
  frontRight : MCmd
  backLeft : MCmd
  backRight : MCmd
deriving DecidableEq

/-- moveRobot from opcontrol.c: control[0] = axis 3 (strafe), control[1] =
axis 1 (throttle), control[2] = axis 4 (turn); each wheel power is the
linear combination computed in the source, then motorSet on each wheel. -/
def moveRobot (i : Input) : DriveOut :=
  let c0 := i.axis3
  let c1 := i.axis1
  let c2 := i.axis4
  { frontLeft := MCmd.set (0 - c1 - c0 + c2)
    frontRight := MCmd.set (0 - c1 + c0 + c2)
    backLeft := MCmd.set (0 - c1 - c0 - c2)
    backRight := MCmd.set (0 - c1 + c0 - c2) }

/-- stopRobot from opcontrol.c: motorStop on all four drive motors. -/
def stopRobot : DriveOut :=
  { frontLeft := MCmd.stop
    frontRight := MCmd.stop
    backLeft := MCmd.stop
    backRight := MCmd.stop }

/-- handlePickup from opcontrol.c: if more than debounceDelay has elapsed
since pickupLastTime, negate pickupIsActive and record the current millis
value.  The C expression millis() - pickupLastTime is unsigned arithmetic;
with a monotone clock the stored time never exceeds the current time, so
Nat subtraction agrees with it.  t is the millis value during the call. -/
def handlePickup (t : Nat) (s : State) : State :=
  if t - s.pickupLastTime > debounceDelay then
    { s with pickupIsActive := !s.pickupIsActive, pickupLastTime := t }
  else
    s

/-- getArduinoOut from opcontrol.c: 1 if the arduino pin reads HIGH
(enemy ball), otherwise 0. -/
def getArduinoOut (i : Input) : Int :=
  if i.pinArduino then 1 else 0

/-- The commands issued by one call to sort: the sorter motor command, the
mixer motor command, and whether encoderReset(sorter) was called. -/
structure SortOut where
  sorterCmd : Option MCmd
  mixerCmd : Option MCmd
  encReset : Bool
deriving DecidableEq

/-- sort from opcontrol.c.  In the friendly phase: while the encoder is at
most 90 run the sorter at 20 and the mixer at MIXER_SPEED, and once the
encoder exceeds 90 stop both motors, clear sorterFriendly and reset the
encoder.  The enemy phase is symmetric at -90 with the sorter at -20.  The
source writes each inner branch as if / else if with complementary
conditions; the model mirrors that shape exactly. -/
def sort (enc : Int) (s : State) : State × SortOut :=
  if s.sorterFriendly && !s.sorterEnemy then
    if enc ≤ 90 then
      (s, { sorterCmd := some (MCmd.set 20), mixerCmd := some (MCmd.set MIXER_SPEED),
            encReset := false })
    else if enc > 90 then
      ({ s with sorterFriendly := false },
       { sorterCmd := some MCmd.stop, mixerCmd := some MCmd.stop, encReset := true })
    else
      (s, { sorterCmd := none, mixerCmd := none, encReset := false })
  else if s.sorterEnemy && !s.sorterFriendly then
    if enc ≥ -90 then
      (s, { sorterCmd := some (MCmd.set (-20)), mixerCmd := some (MCmd.set MIXER_SPEED),
            encReset := false })
    else if enc < -90 then
      ({ s with sorterEnemy := false },
       { sorterCmd := some MCmd.stop, mixerCmd := some MCmd.stop, encReset := true })
    else
      (s, { sorterCmd := none, mixerCmd := none, encReset := false })
  else
    (s, { sorterCmd := none, mixerCmd := none, encReset := false })

/-- The sorter trigger step at the top of the Sorter section of the loop:
a friendly trigger (manual button or arduino reporting 0) sets
sorterFriendly unless sorterEnemy is active; otherwise an enemy trigger
(manual button or arduino reporting 1) sets sorterEnemy unless
sorterFriendly is active. -/
def sorterTrigger (i : Input) (s : State) : State :=
  if (i.btn8L || getArduinoOut i == 0) && !s.sorterEnemy then
    { s with sorterFriendly := true }
  else if (i.btn8R || getArduinoOut i == 1) && !s.sorterFriendly then
    { s with sorterEnemy := true }
  else
    s

/-- Everything the loop body sends to the outside world during one tick.
Motors that the body commands on every tick (the four drive motors, the
ramp, the lifter) are plain MCmd; motors that are commanded only on some
ticks (pickup, shooter, sorter, mixer) are Option MCmd, none meaning the
tick issued no command to that motor. -/
structure Output where
  frontLeft : MCmd
  frontRight : MCmd
  backLeft : MCmd
  backRight : MCmd
  pickup : Option MCmd
  shooter : Option MCmd
  ramp : MCmd
  lifter : MCmd
  sorterCmd : Option MCmd
  mixerCmd : Option MCmd
  encReset : Bool
deriving DecidableEq

/-- One iteration of the while loop of operatorControl, as a function from
the tick's sampled inputs and the module-level state to the new state and
the commands issued, following the source order: drive, pickup, shooter,
ramp, lifter limit flags, lifter command, sorter trigger, sort. -/
def operatorControlTick (i : Input) (s : State) : State × Output :=
  let drive :=
    if |i.axis3| > DEADZONE ∨ |i.axis4| > DEADZONE ∨ |i.axis1| > DEADZONE then
      moveRobot i
    else
      stopRobot
  let s1 := if i.btn7R then handlePickup i.time s else s
  let pickupCmd : Option MCmd :=
    if i.btn7R then
      some (if (handlePickup i.time s).pickupIsActive then MCmd.set 127 else MCmd.stop)
    else
      none
  let shooterCmd : Option MCmd :=
    if i.btn5Dn then some (MCmd.set 80)
    else if i.btn5Up then some MCmd.stop
    else none
  let rampCmd : MCmd :=
    if i.btn6Up then MCmd.set 127
    else if i.btn6Dn then MCmd.set (-127)
    else MCmd.stop
  let atMax := i.pinLifterMax == LOW
  let atMin := i.pinLifterMin == LOW
  let s2 := { s1 with lifterAtMax := atMax, lifterAtMin := atMin }
  let lifterCmd : MCmd :=
    if i.btn8Up && !atMax then MCmd.set 127
    else if i.btn8Dn && !atMin then MCmd.set (-127)
    else MCmd.stop
  let s3 := sorterTrigger i s2
  let s4 := (sort i.enc s3).1
  let so := (sort i.enc s3).2
  (s4,
   { frontLeft := drive.frontLeft
     frontRight := drive.frontRight
     backLeft := drive.backLeft
     backRight := drive.backRight
     pickup := pickupCmd
     shooter := shooterCmd
     ramp := rampCmd
     lifter := lifterCmd
     sorterCmd := so.sorterCmd
     mixerCmd := so.mixerCmd
     encReset := so.encReset })

/-- The state reached after one tick. -/
def tickState (i : Input) (s : State) : State :=
  (operatorControlTick i s).1

/-- A state of the module-level variables reachable from the initial state
by some sequence of ticks with arbitrary inputs. -/
inductive Reachable : State → Prop where
  | init : Reachable initState
  | step (i : Input) (s : State) : Reachable s → Reachable (tickState i s)

/-- A neutral input: all axes centred, no buttons pressed, both limit
switch pins HIGH (not pressed), the arduino pin HIGH, encoder at zero. -/
def neutralIn : Input :=
  { axis1 := 0, axis3 := 0, axis4 := 0
    btn7R := false, btn5Dn := false, btn5Up := false
    btn6Up := false, btn6Dn := false
    btn8Up := false, btn8Dn := false, btn8L := false, btn8R := false
    pinLifterMax := true, pinLifterMin := true, pinArduino := true
    enc := 0, time := 0 }

/-- An input with the throttle axis pushed past the deadzone. -/
def throttleIn : Input := { neutralIn with axis1 := 30 }

/-- An input pressing lifter up and down together with the max switch
engaged (pin LOW) and the min switch free. -/
def liftIn : Input := { neutralIn with btn8Up := true, btn8Dn := true, pinLifterMax := false }

/-- A state in the friendly sorting phase. -/
def friendlyState : State := { initState with sorterFriendly := true }

/-- A state in the enemy sorting phase. -/
def enemyState : State := { initState with sorterEnemy := true }

/-- The action of one loop iteration on the pair (sorterFriendly,
sorterEnemy): the trigger step followed by the sort step.  tf and te are
the friendly and enemy trigger conditions of the tick, gt90 and ltm90
record whether the encoder reading is above +90 or below -90.  This is a
proof-support abbreviation; the lemma tick_flags_fun proves it equal to
the flag action of operatorControlTick. -/
def sorterFlagsStep (tf te gt90 ltm90 : Bool) (fe : Bool × Bool) : Bool × Bool :=
  let f1 := tf && !fe.2 || fe.1
  let e1 := !(tf && !fe.2) && (te && !fe.1) || fe.2
  (if f1 = true ∧ e1 = false ∧ gt90 = true then false else f1,
   if e1 = true ∧ f1 = false ∧ ltm90 = true then false else e1)

/-- A state in which the pickup-active flag is set. -/
def pickupOnState : State := { initState with pickupIsActive := true }

/-- An input holding the pickup toggle button, sampled with the clock at
200 time units. -/
def pickupIn : Input := { neutralIn with btn7R := true, time := 200 }

/-- The input snapshot of the C8 counterexample run: the pickup toggle
button held and everything else neutral; only the clock value t differs
from tick to tick, exactly as in the real loop where millis advances by
the 20-unit tick period. -/
def heldIn (t : Nat) : Input := { neutralIn with btn7R := true, time := t }

/-- The state after n ticks of a run in which the heldIn snapshot is
sampled on every tick and the clock advances 20 units per tick. -/
def heldRun : Nat → State
  | 0 => initState
  | n + 1 => tickState (heldIn (20 * (n + 1))) (heldRun n)

/-- The commands issued by tick n+1 of that run. -/
def heldOut (n : Nat) : Output :=
  (operatorControlTick (heldIn (20 * (n + 1))) (heldRun n)).2

lemma tickState_def (i : Input) (s : State) :
    tickState i s = (sort i.enc (sorterTrigger i
      { (if i.btn7R then handlePickup i.time s else s) with
        lifterAtMax := i.pinLifterMax == LOW
        lifterAtMin := i.pinLifterMin == LOW })).1 := rfl

lemma pickupBranch_flags (i : Input) (s : State) :
    (if i.btn7R then handlePickup i.time s else s).sorterFriendly = s.sorterFriendly ∧
    (if i.btn7R then handlePickup i.time s else s).sorterEnemy = s.sorterEnemy := by
  unfold handlePickup
  split_ifs <;> exact ⟨rfl, rfl⟩

lemma sorterTrigger_other (i : Input) (s : State) :
    (sorterTrigger i s).pickupIsActive = s.pickupIsActive ∧
    (sorterTrigger i s).pickupLastTime = s.pickupLastTime ∧
    (sorterTrigger i s).lifterAtMax = s.lifterAtMax ∧
    (sorterTrigger i s).lifterAtMin = s.lifterAtMin := by
  unfold sorterTrigger
  split_ifs <;> exact ⟨rfl, rfl, rfl, rfl⟩

lemma sort_other (enc : Int) (s : State) :
    (sort enc s).1.pickupIsActive = s.pickupIsActive ∧
    (sort enc s).1.pickupLastTime = s.pickupLastTime ∧
    (sort enc s).1.lifterAtMax = s.lifterAtMax ∧
    (sort enc s).1.lifterAtMin = s.lifterAtMin := by
  unfold sort
  split_ifs <;> exact ⟨rfl, rfl, rfl, rfl⟩

lemma sorterTrigger_friendly_char (i : Input) (s : State) :
    (sorterTrigger i s).sorterFriendly =
      ((i.btn8L || getArduinoOut i == 0) && !s.sorterEnemy || s.sorterFriendly) := by
  unfold sorterTrigger getArduinoOut
  cases ha : i.pinArduino <;> cases hl : i.btn8L <;> cases hr : i.btn8R <;>
    split_ifs <;> simp_all

lemma sorterTrigger_enemy_char (i : Input) (s : State) :
    (sorterTrigger i s).sorterEnemy =
      (!((i.btn8L || getArduinoOut i == 0) && !s.sorterEnemy) &&
        ((i.btn8R || getArduinoOut i == 1) && !s.sorterFriendly) || s.sorterEnemy) := by
  unfold sorterTrigger getArduinoOut
  cases ha : i.pinArduino <;> cases hl : i.btn8L <;> cases hr : i.btn8R <;>
    split_ifs <;> simp_all

lemma sort_friendly_char (enc : Int) (s : State) :
    (sort enc s).1.sorterFriendly =
      (if s.sorterFriendly = true ∧ s.sorterEnemy = false ∧ 90 < enc then false
       else s.sorterFriendly) := by
  unfold sort
  split_ifs <;> simp_all <;> omega

lemma sort_enemy_char (enc : Int) (s : State) :
    (sort enc s).1.sorterEnemy =
      (if s.sorterEnemy = true ∧ s.sorterFriendly = false ∧ enc < -90 then false
       else s.sorterEnemy) := by
  unfold sort
  split_ifs <;> simp_all <;> omega

lemma tickState_friendly_char (i : Input) (s : State) :
    (tickState i s).sorterFriendly =
      (if ((i.btn8L || getArduinoOut i == 0) && !s.sorterEnemy || s.sorterFriendly) = true ∧
          (!((i.btn8L || getArduinoOut i == 0) && !s.sorterEnemy) &&
            ((i.btn8R || getArduinoOut i == 1) && !s.sorterFriendly) || s.sorterEnemy) = false ∧
          90 < i.enc
       then false
       else ((i.btn8L || getArduinoOut i == 0) && !s.sorterEnemy || s.sorterFriendly)) := by
  rcases pickupBranch_flags i s with ⟨hf, he⟩
  rw [tickState_def, sort_friendly_char, sorterTrigger_friendly_char, sorterTrigger_enemy_char]
  simp [hf, he]

lemma tickState_enemy_char (i : Input) (s : State) :
    (tickState i s).sorterEnemy =
      (if (!((i.btn8L || getArduinoOut i == 0) && !s.sorterEnemy) &&
            ((i.btn8R || getArduinoOut i == 1) && !s.sorterFriendly) || s.sorterEnemy) = true ∧
          ((i.btn8L || getArduinoOut i == 0) && !s.sorterEnemy || s.sorterFriendly) = false ∧
          i.enc < -90
       then false
       else (!((i.btn8L || getArduinoOut i == 0) && !s.sorterEnemy) &&
              ((i.btn8R || getArduinoOut i == 1) && !s.sorterFriendly) || s.sorterEnemy)) := by
  rcases pickupBranch_flags i s with ⟨hf, he⟩
  rw [tickState_def, sort_enemy_char, sorterTrigger_friendly_char, sorterTrigger_enemy_char]
  simp [hf, he]

lemma tick_excl (i : Input) (s : State)
    (h : ¬(s.sorterFriendly = true ∧ s.sorterEnemy = true)) :
    ¬((tickState i s).sorterFriendly = true ∧ (tickState i s).sorterEnemy = true) := by
  rw [tickState_friendly_char, tickState_enemy_char]
  by_cases h90 : (90:Int) < i.enc <;> by_cases hm90 : i.enc < -90 <;>
    cases hf : s.sorterFriendly <;> cases he : s.sorterEnemy <;>
    cases hl : (i.btn8L || getArduinoOut i == 0) <;>
    cases hr : (i.btn8R || getArduinoOut i == 1) <;>
    simp_all

lemma tickState_pickup (i : Input) (s : State) (h : i.btn7R = false) :
    (tickState i s).pickupIsActive = s.pickupIsActive ∧
    (tickState i s).pickupLastTime = s.pickupLastTime := by
  constructor
  · rw [tickState_def, (sort_other _ _).1, (sorterTrigger_other _ _).1]
    simp [h]
  · rw [tickState_def, (sort_other _ _).2.1, (sorterTrigger_other _ _).2.1]
    simp [h]

lemma tickState_lifterFlags (i : Input) (s : State) :
    (tickState i s).lifterAtMax = (i.pinLifterMax == LOW) ∧
    (tickState i s).lifterAtMin = (i.pinLifterMin == LOW) := by
  constructor
  · rw [tickState_def, (sort_other _ _).2.2.1, (sorterTrigger_other _ _).2.2.1]
  · rw [tickState_def, (sort_other _ _).2.2.2, (sorterTrigger_other _ _).2.2.2]


lemma tick_flags_fun (i : Input) (s : State) :
    ((tickState i s).sorterFriendly, (tickState i s).sorterEnemy) =
      sorterFlagsStep (i.btn8L || getArduinoOut i == 0) (i.btn8R || getArduinoOut i == 1)
        (decide (90 < i.enc)) (decide (i.enc < -90))
        (s.sorterFriendly, s.sorterEnemy) := by
  rw [Prod.mk.injEq]
  constructor
  · rw [tickState_friendly_char]
    simp [sorterFlagsStep]
  · rw [tickState_enemy_char]
    simp [sorterFlagsStep]

lemma sorterFlagsStep_idem (tf te gt90 ltm90 : Bool)
    (h : ¬(gt90 = true ∧ ltm90 = true)) (fe : Bool × Bool) :
    sorterFlagsStep tf te gt90 ltm90 (sorterFlagsStep tf te gt90 ltm90
      (sorterFlagsStep tf te gt90 ltm90 fe)) =
    sorterFlagsStep tf te gt90 ltm90 (sorterFlagsStep tf te gt90 ltm90 fe) := by
  obtain ⟨f, e⟩ := fe
  cases tf <;> cases te <;> cases gt90 <;> cases ltm90 <;> cases f <;> cases e <;>
    simp_all [sorterFlagsStep]

lemma tick_flags_idem (i : Input) (s : State) :
    (tickState i (tickState i (tickState i s))).sorterFriendly =
      (tickState i (tickState i s)).sorterFriendly ∧
    (tickState i (tickState i (tickState i s))).sorterEnemy =
      (tickState i (tickState i s)).sorterEnemy := by
  have hex : ¬(decide (90 < i.enc) = true ∧ decide (i.enc < -90) = true) := by
    simp only [decide_eq_true_eq]
    omega
  have h1 := tick_flags_fun i s
  have h2 := tick_flags_fun i (tickState i s)
  have h3 := tick_flags_fun i (tickState i (tickState i s))
  rw [h2] at h3
  rw [h1] at h2 h3
  have hidem := sorterFlagsStep_idem (i.btn8L || getArduinoOut i == 0)
    (i.btn8R || getArduinoOut i == 1) (decide (90 < i.enc)) (decide (i.enc < -90)) hex
    (s.sorterFriendly, s.sorterEnemy)
  have hpair := h3.trans (hidem.trans h2.symm)
  exact ⟨congrArg Prod.fst hpair, congrArg Prod.snd hpair⟩

/-- C1: whenever at least one of the three drive axes exceeds the deadzone
in magnitude, the four drive commands issued that tick are motorSet with
exactly the linear combinations frontLeft = -throttle - strafe + turn,
frontRight = -throttle + strafe + turn, backLeft = -throttle - strafe -
turn, backRight = -throttle + strafe - turn, where throttle is axis 1,
strafe is axis 3 and turn is axis 4. -/
theorem C1_drive_mixing (i : Input) (s : State)
    (h : |i.axis3| > DEADZONE ∨ |i.axis4| > DEADZONE ∨ |i.axis1| > DEADZONE) :
    (operatorControlTick i s).2.frontLeft = MCmd.set (-i.axis1 - i.axis3 + i.axis4) ∧
    (operatorControlTick i s).2.frontRight = MCmd.set (-i.axis1 + i.axis3 + i.axis4) ∧
    (operatorControlTick i s).2.backLeft = MCmd.set (-i.axis1 - i.axis3 - i.axis4) ∧
    (operatorControlTick i s).2.backRight = MCmd.set (-i.axis1 + i.axis3 - i.axis4) := by
  simp only [operatorControlTick, if_pos h, moveRobot]
  refine ⟨?_, ?_, ?_, ?_⟩ <;> · congr 1; ring


/-- Witness for C1 at a concrete input: throttle 30, strafe 0, turn 0. -/
theorem C1_drive_mixing_witness :
    (operatorControlTick throttleIn initState).2.frontLeft =
      MCmd.set (-throttleIn.axis1 - throttleIn.axis3 + throttleIn.axis4) ∧
    (operatorControlTick throttleIn initState).2.frontRight =
      MCmd.set (-throttleIn.axis1 + throttleIn.axis3 + throttleIn.axis4) ∧
    (operatorControlTick throttleIn initState).2.backLeft =
      MCmd.set (-throttleIn.axis1 - throttleIn.axis3 - throttleIn.axis4) ∧
    (operatorControlTick throttleIn initState).2.backRight =
      MCmd.set (-throttleIn.axis1 + throttleIn.axis3 - throttleIn.axis4) :=
  C1_drive_mixing throttleIn initState (by decide)

/-- C2: whenever all three drive axes are within the deadzone, the tick
issues a motorStop command to each of the four drive motors (and hence no
power command to any of them, since each drive motor receives exactly one
command per tick). -/
theorem C2_deadzone_stop (i : Input) (s : State)
    (h3 : |i.axis3| ≤ DEADZONE) (h4 : |i.axis4| ≤ DEADZONE) (h1 : |i.axis1| ≤ DEADZONE) :
    (operatorControlTick i s).2.frontLeft = MCmd.stop ∧
    (operatorControlTick i s).2.frontRight = MCmd.stop ∧
    (operatorControlTick i s).2.backLeft = MCmd.stop ∧
    (operatorControlTick i s).2.backRight = MCmd.stop := by
  have hc : ¬(|i.axis3| > DEADZONE ∨ |i.axis4| > DEADZONE ∨ |i.axis1| > DEADZONE) := by
    push_neg
    exact ⟨h3, h4, h1⟩
  simp [operatorControlTick, if_neg hc, stopRobot]

/-- Witness for C2 at the neutral input: all axes zero. -/
theorem C2_deadzone_stop_witness :
    (operatorControlTick neutralIn initState).2.frontLeft = MCmd.stop ∧
    (operatorControlTick neutralIn initState).2.frontRight = MCmd.stop ∧
    (operatorControlTick neutralIn initState).2.backLeft = MCmd.stop ∧
    (operatorControlTick neutralIn initState).2.backRight = MCmd.stop :=
  C2_deadzone_stop neutralIn initState (by decide) (by decide) (by decide)

/-- C3: the lifter travel-limit interlock.  If the max-limit switch is
engaged (its active-low pin reads LOW) no positive-power lifter command is
issued, even when up and down are pressed together, while a downward
command is still issued whenever down is pressed and the min switch is not
engaged; symmetrically, with the min switch engaged no negative-power
command is issued; and when neither permitted direction is commanded the
lifter is stopped. -/
theorem C3_lifter_interlock (i : Input) (s : State) :
    (i.pinLifterMax = LOW →
      (∀ p : Int, 0 < p → (operatorControlTick i s).2.lifter ≠ MCmd.set p) ∧
      (i.btn8Dn = true → i.pinLifterMin = true →
        (operatorControlTick i s).2.lifter = MCmd.set (-127))) ∧
    (i.pinLifterMin = LOW →
      (∀ p : Int, p < 0 → (operatorControlTick i s).2.lifter ≠ MCmd.set p) ∧
      (i.btn8Up = true → i.pinLifterMax = true →
        (operatorControlTick i s).2.lifter = MCmd.set 127)) ∧
    ((i.btn8Up = false ∨ i.pinLifterMax = LOW) →
      (i.btn8Dn = false ∨ i.pinLifterMin = LOW) →
      (operatorControlTick i s).2.lifter = MCmd.stop) := by
  have hl : (operatorControlTick i s).2.lifter =
      (if i.btn8Up && !(i.pinLifterMax == LOW) then MCmd.set 127
       else if i.btn8Dn && !(i.pinLifterMin == LOW) then MCmd.set (-127)
       else MCmd.stop) := by
    simp only [operatorControlTick]
  rw [hl]
  cases hu : i.btn8Up <;> cases hd : i.btn8Dn <;>
    cases hmx : i.pinLifterMax <;> cases hmn : i.pinLifterMin <;>
    simp [LOW] <;> omega


/-- Witness for C3: with the max switch engaged and both lifter buttons
held, the tick issues the downward command, not the upward one. -/
theorem C3_lifter_interlock_witness :
    (operatorControlTick liftIn initState).2.lifter = MCmd.set (-127) :=
  (C3_lifter_interlock liftIn initState).1 rfl |>.2 rfl rfl

/-- C5: termination of a sorting cycle.  In the friendly phase (flag set,
enemy flag clear): when the encoder exceeds +90 the call stops the sort
motor, clears the friendly flag and resets the encoder, and otherwise it
keeps the sort motor running and leaves the state unchanged; in the enemy
phase the cycle terminates with the same stop/clear/reset effects exactly
when the encoder is below -90, and otherwise keeps running. -/
theorem C5_sorter_termination (enc : Int) (s : State) :
    (s.sorterFriendly = true → s.sorterEnemy = false →
      (enc > 90 →
        (sort enc s).1 = { s with sorterFriendly := false } ∧
        (sort enc s).2.sorterCmd = some MCmd.stop ∧
        (sort enc s).2.encReset = true) ∧
      (enc ≤ 90 →
        (sort enc s).1 = s ∧
        (sort enc s).2.sorterCmd = some (MCmd.set 20) ∧
        (sort enc s).2.encReset = false)) ∧
    (s.sorterEnemy = true → s.sorterFriendly = false →
      (enc < -90 →
        (sort enc s).1 = { s with sorterEnemy := false } ∧
        (sort enc s).2.sorterCmd = some MCmd.stop ∧
        (sort enc s).2.encReset = true) ∧
      (-90 ≤ enc →
        (sort enc s).1 = s ∧
        (sort enc s).2.sorterCmd = some (MCmd.set (-20)) ∧
        (sort enc s).2.encReset = false)) := by
  constructor
  · intro hf he
    refine ⟨fun h90 => ?_, fun h90 => ?_⟩
    · have h1 : ¬(enc ≤ 90) := by omega
      simp [sort, hf, he, h1, h90]
    · simp [sort, hf, he, h90]
  · intro he hf
    refine ⟨fun hm90 => ?_, fun hm90 => ?_⟩
    · have h1 : ¬(-90 ≤ enc) := by omega
      simp [sort, hf, he, h1, hm90]
    · simp [sort, hf, he, hm90]


/-- Witness for C5: in the friendly phase with the encoder at 91, the sort
call stops the sorter, clears the flag and resets the encoder. -/
theorem C5_sorter_termination_witness :
    (sort 91 friendlyState).1 = { friendlyState with sorterFriendly := false } ∧
    (sort 91 friendlyState).2.sorterCmd = some MCmd.stop ∧
    (sort 91 friendlyState).2.encReset = true :=
  ((C5_sorter_termination 91 friendlyState).1 rfl rfl).1 (by decide)

/-- C10: the mixer frame effect.  The mixer motor (port MIXER = 10) is
driven at MIXER_SPEED = 30 on every sort call in which a phase is active
and its encoder threshold has not been crossed, and the call that crosses
the threshold stops the mixer together with the sort motor; when no phase
is active the sort call issues no mixer command. -/
theorem C10_mixer_frame_effect (enc : Int) (s : State) :
    MIXER = 10 ∧ MIXER_SPEED = 30 ∧
    (s.sorterFriendly = true → s.sorterEnemy = false →
      (enc ≤ 90 → (sort enc s).2.mixerCmd = some (MCmd.set MIXER_SPEED)) ∧
      (enc > 90 →
        (sort enc s).2.mixerCmd = some MCmd.stop ∧
        (sort enc s).2.sorterCmd = some MCmd.stop)) ∧
    (s.sorterEnemy = true → s.sorterFriendly = false →
      (-90 ≤ enc → (sort enc s).2.mixerCmd = some (MCmd.set MIXER_SPEED)) ∧
      (enc < -90 →
        (sort enc s).2.mixerCmd = some MCmd.stop ∧
        (sort enc s).2.sorterCmd = some MCmd.stop)) ∧
    (s.sorterFriendly = false → s.sorterEnemy = false →
      (sort enc s).2.mixerCmd = none) := by
  refine ⟨rfl, rfl, ?_, ?_, ?_⟩
  · intro hf he
    refine ⟨fun h90 => ?_, fun h90 => ?_⟩
    · simp [sort, hf, he, h90]
    · have h1 : ¬(enc ≤ 90) := by omega
      simp [sort, hf, he, h1, h90]
  · intro he hf
    refine ⟨fun hm90 => ?_, fun hm90 => ?_⟩
    · simp [sort, hf, he, hm90]
    · have h1 : ¬(-90 ≤ enc) := by omega
      simp [sort, hf, he, h1, hm90]
  · intro hf he
    simp [sort, hf, he]

/-- Witness for C10: in the friendly phase with the encoder at 0, the sort
call drives the mixer at MIXER_SPEED. -/
theorem C10_mixer_frame_effect_witness :
    (sort 0 friendlyState).2.mixerCmd = some (MCmd.set MIXER_SPEED) :=
  (((C10_mixer_frame_effect 0 friendlyState).2.2.1 rfl rfl).1) (by decide)


/-- C4: the two sorter phase flags are mutually exclusive in every
reachable state: starting from the initial state, no sequence of ticks
reaches a state with both flags set; a friendly trigger is suppressed
while the enemy phase is active and an enemy trigger is suppressed while
the friendly phase is active; and no single tick moves directly from one
sorting phase to the other (a tick entered with only the friendly flag
set ends with the enemy flag still clear, and symmetrically). -/
theorem C4_sorter_mutual_exclusion :
    (∀ s, Reachable s → ¬(s.sorterFriendly = true ∧ s.sorterEnemy = true)) ∧
    (∀ (i : Input) (s : State), s.sorterEnemy = true →
      (sorterTrigger i s).sorterFriendly = s.sorterFriendly) ∧
    (∀ (i : Input) (s : State), s.sorterFriendly = true →
      (sorterTrigger i s).sorterEnemy = s.sorterEnemy) ∧
    (∀ (i : Input) (s : State), s.sorterFriendly = true → s.sorterEnemy = false →
      (tickState i s).sorterEnemy = false) ∧
    (∀ (i : Input) (s : State), s.sorterEnemy = true → s.sorterFriendly = false →
      (tickState i s).sorterFriendly = false) := by
  refine ⟨?_, ?_, ?_, ?_, ?_⟩
  · intro s hs
    induction hs with
    | init => simp [initState]
    | step i s hs ih => exact tick_excl i s ih
  · intro i s he
    rw [sorterTrigger_friendly_char, he]
    simp
  · intro i s hf
    rw [sorterTrigger_enemy_char, hf]
    simp
  · intro i s hf he
    rw [tickState_enemy_char, hf, he]
    simp
  · intro i s he hf
    rw [tickState_friendly_char, hf, he]
    simp

theorem C4_sorter_mutual_exclusion_witness :
    ¬(initState.sorterFriendly = true ∧ initState.sorterEnemy = true) ∧
    (sorterTrigger neutralIn enemyState).sorterFriendly = enemyState.sorterFriendly ∧
    (tickState neutralIn friendlyState).sorterEnemy = false :=
  ⟨C4_sorter_mutual_exclusion.1 initState Reachable.init,
   C4_sorter_mutual_exclusion.2.1 neutralIn enemyState rfl,
   C4_sorter_mutual_exclusion.2.2.2.1 neutralIn friendlyState rfl rfl⟩

/-- C6 counterexample: the claim that two button edges separated by more
than the debounce interval each produce a flip fails at the initial state:
edges at times 50 and 160 are 110 > 100 apart, yet the first edge flips
nothing because only 50 time units have passed since the stored last-flip
time 0. -/
theorem C6_counterexample :
    160 - 50 > debounceDelay ∧
    (handlePickup 50 initState).pickupIsActive = initState.pickupIsActive := by
  decide

/-- C6 (amended): two button edges less than the debounce interval apart
produce at most one flip of the pickup-active flag; two edges separated by
more than the interval, the first of which itself falls more than the
interval after the stored last-flip time, each produce a flip; and a flip
occurs only when the elapsed time since the stored last-flip time exceeds
the interval. -/
theorem C6_debounce (s : State) (t1 t2 : Nat) :
    (t2 - t1 < debounceDelay →
      ¬((handlePickup t1 s).pickupIsActive ≠ s.pickupIsActive ∧
        (handlePickup t2 (handlePickup t1 s)).pickupIsActive ≠
          (handlePickup t1 s).pickupIsActive)) ∧
    (t1 - s.pickupLastTime > debounceDelay → t2 - t1 > debounceDelay →
      (handlePickup t1 s).pickupIsActive = !s.pickupIsActive ∧
      (handlePickup t2 (handlePickup t1 s)).pickupIsActive = s.pickupIsActive) ∧
    ((handlePickup t1 s).pickupIsActive ≠ s.pickupIsActive →
      t1 - s.pickupLastTime > debounceDelay) := by
  unfold handlePickup debounceDelay
  refine ⟨?_, ?_, ?_⟩
  · intro hlt
    have h2 : ¬(t2 - t1 > 100) := by omega
    by_cases h1 : t1 - s.pickupLastTime > 100
    · simp [h1, h2]
    · simp [h1]
  · intro ha hb
    simp [ha, hb]
  · intro hne
    by_cases h1 : t1 - s.pickupLastTime > 100
    · exact h1
    · simp [h1] at hne

/-- Witness for C6: from the initial state, edges at times 150 and 300
(each more than the interval after the previous accepted flip) both flip
the flag, returning it to its original value. -/
theorem C6_debounce_witness :
    (handlePickup 150 initState).pickupIsActive = !initState.pickupIsActive ∧
    (handlePickup 300 (handlePickup 150 initState)).pickupIsActive =
      initState.pickupIsActive :=
  (C6_debounce initState 150 300).2.1 (by decide) (by decide)

/-- C7 counterexample: with the pickup-active flag set but the pickup
button not held, the tick issues no pickup command at all, contradicting
the claim that one of the two pickup commands is issued on every tick
regardless of the button. -/
theorem C7_counterexample :
    pickupOnState.pickupIsActive = true ∧
    (operatorControlTick neutralIn pickupOnState).2.pickup = none := by
  decide

/-- C7 (amended): on every tick in which the pickup button is held, after
the debounced toggle update the pickup motor is commanded at full power
127 if the flag is then set and stopped if it is clear; on a tick in which
the button is not held, no pickup command is issued and the previously
latched command stays in force. -/
theorem C7_pickup_command (i : Input) (s : State) :
    (i.btn7R = true → (operatorControlTick i s).2.pickup =
      some (if (handlePickup i.time s).pickupIsActive then MCmd.set 127
            else MCmd.stop)) ∧
    (i.btn7R = false → (operatorControlTick i s).2.pickup = none) := by
  constructor <;> intro h <;> simp [operatorControlTick, h]

/-- Witness for C7: with the button held (and the debounce window elapsed)
the pickup is commanded; with it released, no pickup command is issued. -/
theorem C7_pickup_command_witness :
    (operatorControlTick pickupIn initState).2.pickup =
      some (if (handlePickup pickupIn.time initState).pickupIsActive then MCmd.set 127
            else MCmd.stop) ∧
    (operatorControlTick neutralIn initState).2.pickup = none :=
  ⟨(C7_pickup_command pickupIn initState).1 rfl,
   (C7_pickup_command neutralIn initState).2 rfl⟩

/-- C8 counterexample: a run in which the very same snapshot (pickup
button held, all else neutral) is sampled on every tick does not produce
identical commands on every repetition: the debounced toggle flips the
flag again each time more than 100 time units pass, so tick 6 commands the
pickup at 127 while tick 12 stops it. -/
theorem C8_counterexample :
    (heldOut 5).pickup = some (MCmd.set 127) ∧
    (heldOut 11).pickup = some MCmd.stop := by
  decide

/-- C8 (amended): for a fixed input snapshot in which the pickup toggle
button is not held, the module-level state reaches a fixed point within
two ticks: the state after three ticks equals the state after two, and
from then on every tick issues identical commands. -/
theorem C8_fixed_point (i : Input) (s : State) (h : i.btn7R = false) :
    tickState i (tickState i (tickState i s)) = tickState i (tickState i s) ∧
    (operatorControlTick i (tickState i (tickState i (tickState i s)))).2 =
      (operatorControlTick i (tickState i (tickState i s))).2 := by
  have hfix : tickState i (tickState i (tickState i s)) = tickState i (tickState i s) := by
    ext
    · exact (tickState_pickup i _ h).1
    · exact ((tickState_lifterFlags i _).1).trans ((tickState_lifterFlags i _).1).symm
    · exact ((tickState_lifterFlags i _).2).trans ((tickState_lifterFlags i _).2).symm
    · exact (tick_flags_idem i s).1
    · exact (tick_flags_idem i s).2
    · exact (tickState_pickup i _ h).2
  exact ⟨hfix, by rw [hfix]⟩


/-- Witness for C8 at the neutral input from the initial state. -/
theorem C8_fixed_point_witness :
    tickState neutralIn (tickState neutralIn (tickState neutralIn initState)) =
      tickState neutralIn (tickState neutralIn initState) ∧
    (operatorControlTick neutralIn (tickState neutralIn (tickState neutralIn
      (tickState neutralIn initState)))).2 =
      (operatorControlTick neutralIn (tickState neutralIn
        (tickState neutralIn initState))).2 :=
  C8_fixed_point neutralIn initState rfl

/-- C9 counterexample: on a tick with both shooter buttons released the
loop issues no shooter command at all, so a previously latched running
command stays in force; the claim that release stops the shooter fails. -/
theorem C9_counterexample :
    (operatorControlTick neutralIn initState).2.shooter = none := by
  decide

/-- C9 (amended): the shooter is driven at 80 while 5-DOWN is held and
stopped while 5-UP is held, but a tick with both shooter buttons released
issues no shooter command, leaving the previous command in force; the
ramp is a true momentary actuator: 6-UP drives 127, otherwise 6-DOWN
drives -127, otherwise the tick stops it. -/
theorem C9_shooter_ramp (i : Input) (s : State) :
    (i.btn5Dn = true → (operatorControlTick i s).2.shooter = some (MCmd.set 80)) ∧
    (i.btn5Dn = false → i.btn5Up = true →
      (operatorControlTick i s).2.shooter = some MCmd.stop) ∧
    (i.btn5Dn = false → i.btn5Up = false →
      (operatorControlTick i s).2.shooter = none) ∧
    (i.btn6Up = true → (operatorControlTick i s).2.ramp = MCmd.set 127) ∧
    (i.btn6Up = false → i.btn6Dn = true →
      (operatorControlTick i s).2.ramp = MCmd.set (-127)) ∧
    (i.btn6Up = false → i.btn6Dn = false →
      (operatorControlTick i s).2.ramp = MCmd.stop) := by
  refine ⟨fun h => ?_, fun h h2 => ?_, fun h h2 => ?_,
          fun h => ?_, fun h h2 => ?_, fun h h2 => ?_⟩ <;>
    simp [operatorControlTick, h] <;> simp [h2]

/-- Witness for C9: at the neutral input the tick stops the ramp but
issues no shooter command. -/
theorem C9_shooter_ramp_witness :
    (operatorControlTick neutralIn initState).2.ramp = MCmd.stop ∧
    (operatorControlTick neutralIn initState).2.shooter = none :=
  ⟨(C9_shooter_ramp neutralIn initState).2.2.2.2.2 rfl rfl,
   (C9_shooter_ramp neutralIn initState).2.2.1 rfl rfl⟩

end Opctl
